import Mathlib

/-
Verification of the reconciliation logic of the Ansible module
`library/ec2_elasticsearch.py` (function `main`).

The module is embedded shallowly:

* Python values (the JSON-like data the module manipulates: parameter
  values, the boto3 response dictionaries, policy documents) are the
  inductive type `PyVal`, with dictionaries and lists as the mutual
  spines `PyDict` and `PyList`.  Dictionary equality follows Python
  semantics: order-insensitive, same key set, values compared
  recursively; `True == 1` also holds, `True == "True"` does not.
* JSON strings that the module only ever produces with `json.dumps` and
  consumes with `json.loads` (the access-policy documents) are
  represented by their parse trees.  The module never inspects the
  serialized text itself, and `json.loads` of a dumped document is the
  document, so structural equality of parse trees coincides with the
  comparison `json.loads(status["AccessPolicies"]) != policy_dict`
  performed by the source.
* Failures of dictionary subscription and of iteration are modelled with
  an `Except PyErr` computation: an uncaught Python KeyError or
  TypeError aborts the run (only `botocore.exceptions.ClientError` is
  caught by the source).  Iteration of the policy statements is
  modelled for list values; a policy whose `Statement` entry is not a
  list does not occur for real policy documents and is mapped to a
  type error.
* The boto3 client is modelled by its observable behaviour: the first
  `describe_elasticsearch_domain` call either returns a `DomainStatus`
  dictionary or raises a ClientError carrying an error code and
  message; `create_elasticsearch_domain` and
  `update_elasticsearch_domain_config` calls are recorded in a trace
  together with their keyword arguments and are assumed to succeed;
  the final describe call is assumed to succeed and its payload is the
  `fin` argument of `reconcile`.
* `module.exit_json` and `module.fail_json` become the `Outcome`
  constructors `exited` and `failed`; `fail_json` does not pass the
  local `changed` variable, so the failed outcome carries no changed
  flag (Ansible reports such a task as failed, not changed).
-/

set_option maxHeartbeats 1000000

namespace EsModule

mutual

inductive PyVal where
  | pnone
  | pbool (b : Bool)
  | pint (n : Int)
  | pstr (s : String)
  | plist (xs : PyList)
  | pdict (kvs : PyDict)

inductive PyList where
  | nil
  | cons (head : PyVal) (tail : PyList)

inductive PyDict where
  | nil
  | cons (key : String) (val : PyVal) (tail : PyDict)

end

/-- Build a `PyDict` from a Lean association list (keys assumed distinct,
as in every Python dictionary). -/
def PyDict.ofList : List (String × PyVal) → PyDict
  | [] => .nil
  | (k, v) :: rest => .cons k v (PyDict.ofList rest)

/-- Build a `PyList` from a Lean list. -/
def PyList.ofList : List PyVal → PyList
  | [] => .nil
  | v :: rest => .cons v (PyList.ofList rest)

/-- First value stored under a key, as in Python dictionary subscription. -/
def dlookup : PyDict → String → Option PyVal
  | .nil, _ => none
  | .cons k2 v rest, k => if k2 = k then some v else dlookup rest k

/-- Python dictionary assignment `d[k] = v`: replace the value in place
when the key exists, append the entry otherwise. -/
def dset : PyDict → String → PyVal → PyDict
  | .nil, k, v => .cons k v .nil
  | .cons k2 v2 rest, k, v =>
      if k2 = k then .cons k2 v rest else .cons k2 v2 (dset rest k v)

/-- Number of entries of a dictionary. -/
def dictLen : PyDict → Nat
  | .nil => 0
  | .cons _ _ rest => dictLen rest + 1

/-- Strict lexicographic order on character sequences, by code point. -/
def charListLtb : List Char → List Char → Bool
  | _, [] => false
  | [], _ :: _ => true
  | a :: as, b :: bs =>
      Nat.blt a.toNat b.toNat || (a.toNat == b.toNat && charListLtb as bs)

/-- Strict total order on strings used to canonicalize dictionary keys. -/
def strLtb (a b : String) : Bool := charListLtb a.data b.data

/-- Insert an entry into a dictionary sorted by key, keeping it sorted.
Used only by the normal form below, never by the embedded module code. -/
def insertKey (k : String) (v : PyVal) : PyDict → PyDict
  | .nil => .cons k v .nil
  | .cons k2 v2 rest =>
      if strLtb k k2 then .cons k v (.cons k2 v2 rest)
      else .cons k2 v2 (insertKey k v rest)

/-- Sort a dictionary by key. -/
def sortKeys : PyDict → PyDict
  | .nil => .nil
  | .cons k v rest => insertKey k v (sortKeys rest)

mutual

/-- Normal form backing the model of Python `==`: dictionaries are
sorted by key (Python dictionary equality ignores insertion order), and
booleans become the integers Python makes them equal to (`True == 1`).
Two values with distinct normal forms are unequal in Python, and, the
keys of a Python dictionary being unique, two values with the same
normal form are equal in Python. -/
def pyNorm : PyVal → PyVal
  | .pnone => .pnone
  | .pbool b => .pint (if b then 1 else 0)
  | .pint n => .pint n
  | .pstr s => .pstr s
  | .plist xs => .plist (pyNormList xs)
  | .pdict kvs => .pdict (sortKeys (pyNormDict kvs))

def pyNormList : PyList → PyList
  | .nil => .nil
  | .cons x rest => .cons (pyNorm x) (pyNormList rest)

def pyNormDict : PyDict → PyDict
  | .nil => .nil
  | .cons k v rest => .cons k (pyNorm v) (pyNormDict rest)

end

mutual

/-- Structural equality of values, applied to normal forms by `pyEq`. -/
def pyBeq : PyVal → PyVal → Bool
  | .pnone, .pnone => true
  | .pbool a, .pbool b => a == b
  | .pint a, .pint b => a == b
  | .pstr a, .pstr b => a == b
  | .plist a, .plist b => pyBeqList a b
  | .pdict a, .pdict b => pyBeqDict a b
  | _, _ => false

def pyBeqList : PyList → PyList → Bool
  | .nil, .nil => true
  | .cons x xs, .cons y ys => pyBeq x y && pyBeqList xs ys
  | _, _ => false

def pyBeqDict : PyDict → PyDict → Bool
  | .nil, .nil => true
  | .cons k v rest, .cons k2 v2 rest2 => k == k2 && pyBeq v v2 && pyBeqDict rest rest2
  | _, _ => false

end

/-- Python `==` on the modelled values: structural on scalars, lists
element-wise, dictionaries by key set regardless of order, `True == 1`,
and a boolean is never equal to a string (which clause C9 depends on). -/
def pyEq (a b : PyVal) : Bool := pyBeq (pyNorm a) (pyNorm b)

mutual

/-- Python `repr` of a value, used by `%s`-formatting of containers. -/
def pyRepr : PyVal → String
  | .pnone => "None"
  | .pbool b => if b then "True" else "False"
  | .pint n => toString n
  | .pstr s => "\x27" ++ s ++ "\x27"
  | .plist xs => "[" ++ pyReprList xs ++ "]"
  | .pdict kvs => "\x7b" ++ pyReprDict kvs ++ "\x7d"

def pyReprList : PyList → String
  | .nil => ""
  | .cons x .nil => pyRepr x
  | .cons x rest => pyRepr x ++ ", " ++ pyReprList rest

def pyReprDict : PyDict → String
  | .nil => ""
  | .cons k v .nil => "\x27" ++ k ++ "\x27: " ++ pyRepr v
  | .cons k v rest => "\x27" ++ k ++ "\x27: " ++ pyRepr v ++ ", " ++ pyReprDict rest

end

/-- Python `str`, as used by `"%s/*" % status["ARN"]`.  Only the string
case is exercised by the module, the ARN being a string. -/
def pyStr : PyVal → String
  | .pstr s => s
  | v => pyRepr v

/-- Python truthiness of a value. -/
def pyTruthy : PyVal → Bool
  | .pnone => false
  | .pbool b => b
  | .pint n => n != 0
  | .pstr s => s != ""
  | .plist .nil => false
  | .plist _ => true
  | .pdict .nil => false
  | .pdict _ => true

/-- Whether the first character sequence starts the second. -/
def leadsWith : List Char → List Char → Bool
  | [], _ => true
  | _ :: _, [] => false
  | p :: ps, x :: xs => p == x && leadsWith ps xs

/-- Whether the first character sequence occurs inside the second. -/
def containsSeq (pat : List Char) : List Char → Bool
  | [] => leadsWith pat []
  | x :: xs => leadsWith pat (x :: xs) || containsSeq pat xs

/-- Substring test, for Python `in` on strings. -/
def strContains (s pat : String) : Bool := containsSeq pat.data s.data

/-- Python `in` on a list: membership under Python equality. -/
def listContainsStr : PyList → String → Bool
  | .nil, _ => false
  | .cons x rest, k => pyEq x (.pstr k) || listContainsStr rest k

/-- Uncaught Python exceptions the module can raise: only
`botocore.exceptions.ClientError` is caught by the source, so these
abort the run. -/
inductive PyErr where
  | keyError (key : String)
  | typeError (msg : String)

/-- Python `k in v` for the containers the module applies it to. -/
def pyContains (v : PyVal) (k : String) : Except PyErr Bool :=
  match v with
  | .pdict kvs => .ok (dlookup kvs k).isSome
  | .plist xs => .ok (listContainsStr xs k)
  | .pstr s => .ok (strContains s k)
  | _ => .error (.typeError ("argument is not iterable"))

/-- Python subscription `v[k]` with a string key: KeyError on a missing
dictionary key, TypeError on non-dictionaries. -/
def dget (v : PyVal) (k : String) : Except PyErr PyVal :=
  match v with
  | .pdict kvs =>
      match dlookup kvs k with
      | some w => .ok w
      | none => .error (.keyError k)
  | _ => .error (.typeError ("object is not subscriptable"))

/-- Python `k in v` as a total test; the module only applies it to the
describe response, which is a dictionary by the time it is tested. -/
def dmem (v : PyVal) (k : String) : Bool :=
  match v with
  | .pdict kvs => (dlookup kvs k).isSome
  | .plist xs => listContainsStr xs k
  | .pstr s => strContains s k
  | _ => false

/-- Module parameters after processing by `AnsibleModule(argument_spec)`:
declared types are coerced (`type=int` and `type=bool` fields), optional
parameters without a default are `None` (here `Option.none`),
`zone_awareness_zonecount` defaults to 1, `elasticsearch_version` to
"2.3" and `encryption_at_rest_enabled` to the boolean `False` (it is
declared without a type, so a caller-supplied value reaches the module
unconverted, hence `PyVal`). -/
structure Params where
  name : String
  instance_type : String
  instance_count : Int
  dedicated_master : Bool
  zone_awareness : Bool
  zone_awareness_zonecount : Int
  dedicated_master_instance_type : Option String
  dedicated_master_instance_count : Option Int
  ebs : Bool
  volume_type : String
  volume_size : Int
  access_policies : PyVal
  vpc_subnets : Option String
  vpc_security_groups : Option String
  snapshot_hour : Int
  elasticsearch_version : String
  encryption_at_rest_enabled : PyVal
  encryption_at_rest_kms_key_id : Option String

/-- A possibly absent string parameter as the Python value it holds. -/
def optStrVal : Option String → PyVal
  | some s => .pstr s
  | none => .pnone

/-- A possibly absent integer parameter as the Python value it holds. -/
def optIntVal : Option Int → PyVal
  | some n => .pint n
  | none => .pnone

/-- Characters removed by Python `str.strip()`. -/
def isPySpace (c : Char) : Bool :=
  c == ' ' || c == '\t' || c == '\n' || c == '\r' || c == '\x0b' || c == '\x0c'

/-- Python `str.strip()`. -/
def pyStrip (s : String) : String :=
  .mk (((s.data.dropWhile isPySpace).reverse.dropWhile isPySpace).reverse)

/-- Python `str.split(",")`: split at every comma. -/
def splitComma : List Char → List (List Char)
  | [] => [[]]
  | c :: rest =>
      match splitComma rest with
      | [] => [[c]]
      | h :: t => if c == ',' then [] :: h :: t else (c :: h) :: t

/-- `[x.strip() for x in s.split(",")]` as a Python list value. -/
def splitAndStrip (s : String) : PyVal :=
  .plist (PyList.ofList ((splitComma s.data).map
    (fun cs => PyVal.pstr (pyStrip (String.mk cs)))))

/-- The `cluster_config` dictionary built by `main` (lines 187-200 and
222-224 of the source): base fields, then `ZoneAwarenessConfig` when
zone awareness is on, then the dedicated-master fields when the
dedicated-master flag is on — taken from the possibly absent optional
parameters, so possibly `None`. -/
def cluster_config (p : Params) : PyVal :=
  .pdict (PyDict.ofList (
    [("InstanceType", .pstr p.instance_type),
     ("InstanceCount", .pint p.instance_count),
     ("DedicatedMasterEnabled", .pbool p.dedicated_master),
     ("ZoneAwarenessEnabled", .pbool p.zone_awareness)]
    ++ (if p.zone_awareness then
          [("ZoneAwarenessConfig",
            .pdict (PyDict.ofList [("AvailabilityZoneCount", .pint p.zone_awareness_zonecount)]))]
        else [])
    ++ (if p.dedicated_master then
          [("DedicatedMasterType", optStrVal p.dedicated_master_instance_type),
           ("DedicatedMasterCount", optIntVal p.dedicated_master_instance_count)]
        else [])))

/-- The `ebs_options` dictionary (lines 202-204 and 226-228). -/
def ebs_options (p : Params) : PyVal :=
  .pdict (PyDict.ofList (
    [("EBSEnabled", .pbool p.ebs)]
    ++ (if p.ebs then
          [("VolumeType", .pstr p.volume_type),
           ("VolumeSize", .pint p.volume_size)]
        else [])))

/-- The `snapshot_options` dictionary (lines 230-232). -/
def snapshot_options (p : Params) : PyVal :=
  .pdict (PyDict.ofList [("AutomatedSnapshotStartHour", .pint p.snapshot_hour)])

/-- Line 206 of the source: `module.params.get("encryption_at_rest_enabled")
== "True"` — a comparison against the string, not a boolean test. -/
def encryptionEnabled (p : Params) : Bool :=
  pyEq p.encryption_at_rest_enabled (.pstr ("True"))

/-- The `encryption_at_rest_options` dictionary (lines 207-212):
`KmsKeyId` is added only when the string comparison succeeded. -/
def encryption_at_rest_options (p : Params) : PyVal :=
  .pdict (PyDict.ofList (
    [("Enabled", .pbool (encryptionEnabled p))]
    ++ (if encryptionEnabled p then
          [("KmsKeyId", optStrVal p.encryption_at_rest_kms_key_id)]
        else [])))

/-- The `vpc_options` dictionary (lines 214-220): each key exists only
when the corresponding comma-separated parameter is truthy (present and
non-empty). -/
def vpc_options (p : Params) : PyVal :=
  .pdict (PyDict.ofList (
    (match p.vpc_subnets with
     | some s => if s != "" then [("SubnetIds", splitAndStrip s)] else []
     | none => [])
    ++ (match p.vpc_security_groups with
        | some s => if s != "" then [("SecurityGroupIds", splitAndStrip s)] else []
        | none => [])))

/-- Result of the first `describe_elasticsearch_domain` call: either the
`DomainStatus` dictionary of the response, or a
`botocore.exceptions.ClientError` carrying `e.response["Error"]["Code"]`
and `e.response["Error"]["Message"]`. -/
inductive DescribeResult where
  | found (status : PyVal)
  | clientError (code : String) (message : String)

/-- How the run ends: `module.exit_json(changed=..., response=...)`,
`module.fail_json(msg=...)` (which passes no `changed` value), or an
uncaught Python exception. -/
inductive Outcome where
  | exited (changed : Bool) (response : PyVal)
  | failed (msg : String)
  | crashed (e : PyErr)

/-- A mutating provider call issued by the run, with its keyword
arguments. -/
inductive Request where
  | create (args : PyVal)
  | update (args : PyVal)

/-- Observable behaviour of one run: the terminal outcome and the
mutating provider calls issued before it, in order. -/
structure RunResult where
  outcome : Outcome
  calls : List Request

/-- An uncaught exception as a run outcome with no further calls. -/
def crashRun (e : PyErr) : RunResult := ⟨.crashed e, []⟩

/-- Lines 247-251 for a single statement: when it lacks a `Resource`
field, read `status["ARN"]` and set
`statement["Resource"] = "%s/*" % status["ARN"]` (the format operand is
evaluated before the assignment, so a missing ARN is a KeyError even
for a statement that could not be assigned to). -/
def patchOne (status st : PyVal) : Except PyErr PyVal :=
  match pyContains st ("Resource") with
  | .error e => .error e
  | .ok true => .ok st
  | .ok false =>
      match dget status ("ARN") with
      | .error e => .error e
      | .ok arn =>
          match st with
          | .pdict kvs => .ok (.pdict (dset kvs ("Resource") (.pstr (pyStr arn ++ "/*"))))
          | _ => .error (.typeError ("object does not support item assignment"))

/-- The patch loop over the statements, left to right, first exception
wins. -/
def patchList (status : PyVal) : PyList → Except PyErr PyList
  | .nil => .ok .nil
  | .cons st rest =>
      match patchOne status st with
      | .error e => .error e
      | .ok st2 =>
          match patchList status rest with
          | .error e => .error e
          | .ok rest2 => .ok (.cons st2 rest2)

/-- Lines 246-251: `policy_dict["Statement"]` (KeyError when the desired
policy has no `Statement` key), then the in-place patch of every
statement lacking `Resource`.  The result is the mutated `policy_dict`,
which is also what `pdoc = json.dumps(policy_dict)` holds afterwards in
the parse-tree representation of JSON strings.  Iteration is modelled
for list values; real policy documents hold their statements in a list. -/
def patchPolicy (status policy : PyVal) : Except PyErr PyVal :=
  match policy with
  | .pdict kvs =>
      match dlookup kvs ("Statement") with
      | none => .error (.keyError ("Statement"))
      | some (.plist sts) =>
          match patchList status sts with
          | .error e => .error e
          | .ok sts2 => .ok (.pdict (dset kvs ("Statement") (.plist sts2)))
      | some _ => .error (.typeError ("statement iteration is modelled for lists"))
  | _ => .error (.typeError ("object is not subscriptable"))

/-- Lines 259-263: the VPC part of the diff.  Only when the observed
status has a `VPCOptions` key are the subnet and security-group lists
compared — each side subscripted in source order, so a desired spec
without the corresponding key raises a KeyError here. -/
def vpcDiff (p : Params) (status : PyVal) : Except PyErr Bool :=
  if dmem status ("VPCOptions") then
    match dget status ("VPCOptions") with
    | .error e => .error e
    | .ok vo =>
        match dget vo ("SubnetIds") with
        | .error e => .error e
        | .ok osub =>
            match dget (vpc_options p) ("SubnetIds") with
            | .error e => .error e
            | .ok dsub =>
                match dget vo ("SecurityGroupIds") with
                | .error e => .error e
                | .ok osg =>
                    match dget (vpc_options p) ("SecurityGroupIds") with
                    | .error e => .error e
                    | .ok dsg => .ok (!pyEq osub dsub || !pyEq osg dsg)
  else .ok false

/-- Lines 253-270: the sequence of `if observed != desired: changed =
True` comparisons, in source order (first exception wins; the
comparisons themselves never raise).  The policy comparison is between
the parsed observed policy string and the patched desired document. -/
def computeChanged (p : Params) (status patched : PyVal) : Except PyErr Bool :=
  match dget status ("ElasticsearchClusterConfig") with
  | .error e => .error e
  | .ok cc =>
      match dget status ("EBSOptions") with
      | .error e => .error e
      | .ok eb =>
          match vpcDiff p status with
          | .error e => .error e
          | .ok vb =>
              match dget status ("SnapshotOptions") with
              | .error e => .error e
              | .ok so =>
                  match dget status ("AccessPolicies") with
                  | .error e => .error e
                  | .ok ap =>
                      .ok (!pyEq cc (cluster_config p) || !pyEq eb (ebs_options p)
                           || vb || !pyEq so (snapshot_options p) || !pyEq ap patched)

/-- Lines 281 and 300: `if vpc_options["SubnetIds"] or
vpc_options["SecurityGroupIds"]` — subscription, not `.get`, so a
missing `SubnetIds` key (no subnets supplied) raises a KeyError before
the request is issued, and a missing `SecurityGroupIds` key raises when
`SubnetIds` is falsy. -/
def vpcGate (p : Params) : Except PyErr Bool :=
  match dget (vpc_options p) ("SubnetIds") with
  | .error e => .error e
  | .ok sub =>
      if pyTruthy sub then .ok true
      else
        match dget (vpc_options p) ("SecurityGroupIds") with
        | .error e => .error e
        | .ok sg => .ok (pyTruthy sg)

/-- The `keyword_args` of `update_elasticsearch_domain_config`
(lines 273-282): no encryption entry, policy document as patched. -/
def updateArgs (p : Params) (pdoc : PyVal) (includeVpc : Bool) : PyVal :=
  .pdict (PyDict.ofList (
    [("DomainName", .pstr p.name),
     ("ElasticsearchClusterConfig", cluster_config p),
     ("EBSOptions", ebs_options p),
     ("SnapshotOptions", snapshot_options p),
     ("AccessPolicies", pdoc)]
    ++ (if includeVpc then [("VPCOptions", vpc_options p)] else [])))

/-- The `keyword_args` of `create_elasticsearch_domain` (lines 290-301):
engine version and encryption options included, policy document as
supplied by the caller (no ARN patching is possible before creation). -/
def createArgs (p : Params) (includeVpc : Bool) : PyVal :=
  .pdict (PyDict.ofList (
    [("DomainName", .pstr p.name),
     ("ElasticsearchVersion", .pstr p.elasticsearch_version),
     ("EncryptionAtRestOptions", encryption_at_rest_options p),
     ("ElasticsearchClusterConfig", cluster_config p),
     ("EBSOptions", ebs_options p),
     ("SnapshotOptions", snapshot_options p),
     ("AccessPolicies", p.access_policies)]
    ++ (if includeVpc then [("VPCOptions", vpc_options p)] else [])))

/-- The found path (lines 243-284 followed by 309-310): patch the
policy, compute the diff, and either exit unchanged or issue one update
and exit changed.  `fin` is the payload of the final describe call. -/
def foundPath (p : Params) (status fin : PyVal) : RunResult :=
  match patchPolicy status p.access_policies with
  | .error e => crashRun e
  | .ok patched =>
      match computeChanged p status patched with
      | .error e => crashRun e
      | .ok false => ⟨.exited false fin, []⟩
      | .ok true =>
          match vpcGate p with
          | .error e => crashRun e
          | .ok inc => ⟨.exited true fin, [.update (updateArgs p patched inc)]⟩

/-- The not-found path (lines 289-303 followed by 309-310): build the
creation request, gate the VPC entry, create, and exit changed. -/
def notFoundPath (p : Params) (fin : PyVal) : RunResult :=
  match vpcGate p with
  | .error e => crashRun e
  | .ok inc => ⟨.exited true fin, [.create (createArgs p inc)]⟩

/-- The whole run of `main` after parameter processing, as a function of
the parameters, the result of the first describe call and the payload
`fin` of the final describe call (create and update calls and the final
describe are modelled as succeeding).  A ClientError on describe whose
code is not `ResourceNotFoundException` reaches
`module.fail_json(msg="Error: %s %s" % (code, message))` — the local
`changed = True` assigned on line 287 is dead there, since `fail_json`
is not passed a `changed` value. -/
def reconcile (p : Params) (d1 : DescribeResult) (fin : PyVal) : RunResult :=
  match d1 with
  | .found status => foundPath p status fin
  | .clientError code message =>
      if code = "ResourceNotFoundException" then notFoundPath p fin
      else ⟨.failed ("Error: " ++ code ++ " " ++ message), []⟩

/-- A desired access policy whose single statement has no `Resource`
field, as in the example scenario of the specification. -/
def policyNoResource : PyVal :=
  .pdict (PyDict.ofList [("Statement", .plist (PyList.ofList
    [.pdict (PyDict.ofList [("Effect", .pstr ("Allow"))])]))])

/-- ARN of the example domain once provisioned. -/
def exampleArn : String := "arn:aws:es:eu-west-1:123456789012:domain/logs"

/-- The same policy with the `Resource` the provider fills in. -/
def policyWithResource : PyVal :=
  .pdict (PyDict.ofList [("Statement", .plist (PyList.ofList
    [.pdict (PyDict.ofList
      [("Effect", .pstr ("Allow")),
       ("Resource", .pstr (exampleArn ++ "/*"))])]))])

/-- The example spec of the specification (section 8): no network
config, no dedicated master, no zone awareness, EBS gp2 of 10, snapshot
hour 3, defaults elsewhere. -/
def paramsCreate : Params :=
  { name := "logs"
    instance_type := "t2.small.elasticsearch"
    instance_count := 1
    dedicated_master := false
    zone_awareness := false
    zone_awareness_zonecount := 1
    dedicated_master_instance_type := none
    dedicated_master_instance_count := none
    ebs := true
    volume_type := "gp2"
    volume_size := 10
    access_policies := policyNoResource
    vpc_subnets := none
    vpc_security_groups := none
    snapshot_hour := 3
    elasticsearch_version := "2.3"
    encryption_at_rest_enabled := .pbool false
    encryption_at_rest_kms_key_id := none }

/-- The example spec with the provider-patched policy and still no
network config, used on found paths. -/
def paramsFound : Params := { paramsCreate with access_policies := policyWithResource }

/-- The example spec with the dedicated-master flag on while both
dedicated-master parameters stay absent, and with a subnet so the
request-building line is reached. -/
def paramsMaster : Params :=
  { paramsCreate with dedicated_master := true, vpc_subnets := some "subnet-1" }

/-- The example spec with only security groups supplied. -/
def paramsSgOnly : Params := { paramsFound with vpc_security_groups := some "sg-1" }

/-- The example spec with subnets supplied. -/
def paramsVpc : Params := { paramsFound with vpc_subnets := some "subnet-a, subnet-b" }

/-- An observed domain status structurally identical to what
`paramsFound` derives: same cluster config, EBS options, snapshot
options and (already patched) access policy, no VPC placement. -/
def statusConverged : PyVal :=
  .pdict (PyDict.ofList
    [("ARN", .pstr exampleArn),
     ("ElasticsearchClusterConfig", cluster_config paramsFound),
     ("EBSOptions", ebs_options paramsFound),
     ("SnapshotOptions", snapshot_options paramsFound),
     ("AccessPolicies", policyWithResource)])

/-- The same observed status except for the snapshot hour, so that a
diff is detected and an update would be attempted. -/
def statusSnapshotDiff : PyVal :=
  .pdict (PyDict.ofList
    [("ARN", .pstr exampleArn),
     ("ElasticsearchClusterConfig", cluster_config paramsFound),
     ("EBSOptions", ebs_options paramsFound),
     ("SnapshotOptions", .pdict (PyDict.ofList [("AutomatedSnapshotStartHour", .pint 4)])),
     ("AccessPolicies", policyWithResource)])

/-- The example spec asking for encryption at rest with the exact string
the module compares against. -/
def paramsEncTrue : Params :=
  { paramsCreate with encryption_at_rest_enabled := .pstr ("True"),
                      encryption_at_rest_kms_key_id := some "key-1" }

/-- Every run issues at most one mutating call: either none, or one
create whose arguments are `createArgs`, or one update whose arguments
are `updateArgs`. -/
theorem calls_shape (p : Params) (d : DescribeResult) (fin : PyVal) :
    (reconcile p d fin).calls = []
    ∨ (∃ inc, (reconcile p d fin).calls = [.create (createArgs p inc)])
    ∨ (∃ pdoc inc, (reconcile p d fin).calls = [.update (updateArgs p pdoc inc)]) := by
  cases d with
  | found status =>
    simp only [reconcile, foundPath]
    cases patchPolicy status p.access_policies with
    | error e => exact Or.inl rfl
    | ok patched =>
      dsimp only
      cases computeChanged p status patched with
      | error e => exact Or.inl rfl
      | ok b =>
        cases b with
        | false => exact Or.inl rfl
        | true =>
          dsimp only
          cases vpcGate p with
          | error e => exact Or.inl rfl
          | ok inc => exact Or.inr (Or.inr ⟨patched, inc, rfl⟩)
  | clientError code msg =>
    simp only [reconcile]
    by_cases hc : code = "ResourceNotFoundException"
    · simp only [if_pos hc, notFoundPath]
      cases vpcGate p with
      | error e => exact Or.inl rfl
      | ok inc => exact Or.inr (Or.inl ⟨inc, rfl⟩)
    · simp only [if_neg hc]
      exact Or.inl trivial

/-- C1: no-diff detection and idempotence.  For every desired spec, when
the observed `DomainStatus` is structurally identical (Python equality)
to the derived cluster config, EBS options and snapshot options, the
policy patch succeeds and the observed policy equals the ARN-patched
desired policy, and the VPC comparison block finds no difference, the
run issues no update call (no mutating call at all) and exits with
`changed=false`.  `reconcile` is a pure function of the parameters and
the describe result, so a second run against a provider left in such a
converged state by a first run again returns `changed=false`. -/
theorem claim_c1 (p : Params) (status fin patched cc eb so ap : PyVal)
    (hpatch : patchPolicy status p.access_policies = .ok patched)
    (hcc : dget status ("ElasticsearchClusterConfig") = .ok cc)
    (hcceq : pyEq cc (cluster_config p) = true)
    (heb : dget status ("EBSOptions") = .ok eb)
    (hebeq : pyEq eb (ebs_options p) = true)
    (hvpc : vpcDiff p status = .ok false)
    (hso : dget status ("SnapshotOptions") = .ok so)
    (hsoeq : pyEq so (snapshot_options p) = true)
    (hap : dget status ("AccessPolicies") = .ok ap)
    (hapeq : pyEq ap patched = true) :
    reconcile p (.found status) fin = ⟨.exited false fin, []⟩ := by
  simp only [reconcile, foundPath, computeChanged, hpatch, hcc, hcceq, heb, hebeq,
    hvpc, hso, hsoeq, hap, hapeq, Bool.not_true, Bool.false_or, Bool.or_false,
    Bool.or_self]

/-- Witness for C1 at the example spec against a converged status. -/
theorem claim_c1_witness :
    reconcile paramsFound (.found statusConverged) (.pstr ("post"))
      = ⟨.exited false (.pstr ("post")), []⟩ :=
  claim_c1 paramsFound statusConverged (.pstr ("post")) policyWithResource
    _ _ _ _ rfl rfl rfl rfl rfl rfl rfl rfl rfl rfl

/-- C2: the create-path example scenario crashes instead of creating.
With the example spec of the claim — no network configuration supplied —
and a describe signalling `ResourceNotFoundException`, the run raises an
uncaught KeyError on `SubnetIds` at the VPC gating line
(`vpc_options["SubnetIds"]` on an empty dictionary) before the create
call, so no create is issued and no result is returned, although the
derived cluster config, EBS options and snapshot options are exactly the
payloads the claim expects the create call to carry. -/
theorem claim_c2_not_found_crash :
    reconcile paramsCreate (.clientError ("ResourceNotFoundException") ("nf")) (.pstr ("post"))
      = ⟨.crashed (.keyError ("SubnetIds")), []⟩
  ∧ cluster_config paramsCreate = .pdict (PyDict.ofList
      [("InstanceType", .pstr ("t2.small.elasticsearch")),
       ("InstanceCount", .pint 1),
       ("DedicatedMasterEnabled", .pbool false),
       ("ZoneAwarenessEnabled", .pbool false)])
  ∧ ebs_options paramsCreate = .pdict (PyDict.ofList
      [("EBSEnabled", .pbool true), ("VolumeType", .pstr ("gp2")), ("VolumeSize", .pint 10)])
  ∧ snapshot_options paramsCreate = .pdict (PyDict.ofList [("AutomatedSnapshotStartHour", .pint 3)]) :=
  ⟨rfl, rfl, rfl, rfl⟩

/-- C3: policy ARN patching.  On the found path, a desired policy whose
single statement lacks a `Resource` field has that statement patched
with the observed ARN followed by `/*` before comparison; against an
observed policy equal to the patched document, and with every other
compared field equal, no update call is issued and the run exits with
`changed=false`. -/
theorem claim_c3 (p : Params) (status fin cc eb so ap : PyVal)
    (pkvs skvs : PyDict) (arn : String)
    (hpol : p.access_policies = .pdict pkvs)
    (hst : dlookup pkvs ("Statement") = some (.plist (.cons (.pdict skvs) .nil)))
    (hnores : dlookup skvs ("Resource") = none)
    (harn : dget status ("ARN") = .ok (.pstr arn))
    (hcc : dget status ("ElasticsearchClusterConfig") = .ok cc)
    (hcceq : pyEq cc (cluster_config p) = true)
    (heb : dget status ("EBSOptions") = .ok eb)
    (hebeq : pyEq eb (ebs_options p) = true)
    (hvpc : vpcDiff p status = .ok false)
    (hso : dget status ("SnapshotOptions") = .ok so)
    (hsoeq : pyEq so (snapshot_options p) = true)
    (hap : dget status ("AccessPolicies") = .ok ap)
    (hapeq : pyEq ap (.pdict (dset pkvs ("Statement") (.plist (.cons
        (.pdict (dset skvs ("Resource") (.pstr (arn ++ "/*")))) .nil)))) = true) :
    reconcile p (.found status) fin = ⟨.exited false fin, []⟩ := by
  simp only [reconcile, foundPath, patchPolicy, hpol, hst, patchList, patchOne,
    pyContains, hnores, Option.isSome_none, harn, pyStr, computeChanged,
    hcc, hcceq, heb, hebeq, hvpc, hso, hsoeq, hap, hapeq,
    Bool.not_true, Bool.false_or, Bool.or_false, Bool.or_self]

/-- Witness for C3: the example spec with a Resource-less statement
against a status whose policy carries the patched Resource. -/
theorem claim_c3_witness :
    reconcile paramsCreate (.found statusConverged) (.pstr ("post"))
      = ⟨.exited false (.pstr ("post")), []⟩ :=
  claim_c3 paramsCreate statusConverged (.pstr ("post")) _ _ _ _ _
    (PyDict.ofList [("Effect", .pstr ("Allow"))]) exampleArn
    rfl rfl rfl rfl rfl rfl rfl rfl rfl rfl rfl rfl rfl

/-- C4: the network-config gating claim fails on the code.  When the
desired spec supplies no subnets, reaching the request-building code
raises an uncaught KeyError on `SubnetIds` instead of issuing the
request without a `VPCOptions` entry: first conjunct, both network
parameters absent (the claim says the update request is still issued,
merely without the entry, and the run does not fail); second conjunct,
only security groups supplied, a non-empty sequence (the claim says the
request is issued with a `VPCOptions` entry).  In both runs no update
call is issued and the run aborts. -/
theorem claim_c4_vpc_gate_crash :
    reconcile paramsFound (.found statusSnapshotDiff) (.pstr ("post"))
      = ⟨.crashed (.keyError ("SubnetIds")), []⟩
  ∧ reconcile paramsSgOnly (.found statusSnapshotDiff) (.pstr ("post"))
      = ⟨.crashed (.keyError ("SubnetIds")), []⟩ :=
  ⟨rfl, rfl⟩

/-- C5: network-diff asymmetry.  For every desired spec supplying a
non-empty network configuration, when the observed status has no
`VPCOptions` key and every other compared field equals the desired
value, the run issues no update call and exits with `changed=false`:
the desired-but-absent network direction is never compared (the network
hypothesis is not even needed below, which is exactly the point). -/
theorem claim_c5 (p : Params) (status fin patched cc eb so ap : PyVal)
    (_hnet : (∃ s, p.vpc_subnets = some s ∧ s ≠ "")
             ∨ (∃ s, p.vpc_security_groups = some s ∧ s ≠ ""))
    (hnov : dmem status ("VPCOptions") = false)
    (hpatch : patchPolicy status p.access_policies = .ok patched)
    (hcc : dget status ("ElasticsearchClusterConfig") = .ok cc)
    (hcceq : pyEq cc (cluster_config p) = true)
    (heb : dget status ("EBSOptions") = .ok eb)
    (hebeq : pyEq eb (ebs_options p) = true)
    (hso : dget status ("SnapshotOptions") = .ok so)
    (hsoeq : pyEq so (snapshot_options p) = true)
    (hap : dget status ("AccessPolicies") = .ok ap)
    (hapeq : pyEq ap patched = true) :
    reconcile p (.found status) fin = ⟨.exited false fin, []⟩ := by
  simp only [reconcile, foundPath, computeChanged, vpcDiff, hnov, hpatch,
    hcc, hcceq, heb, hebeq, hso, hsoeq, hap, hapeq, Bool.false_eq_true,
    if_false, Bool.not_true, Bool.false_or, Bool.or_false, Bool.or_self]

/-- Witness for C5: subnets requested, observed domain without VPC
placement, everything else equal. -/
theorem claim_c5_witness :
    reconcile paramsVpc (.found statusConverged) (.pstr ("post"))
      = ⟨.exited false (.pstr ("post")), []⟩ :=
  claim_c5 paramsVpc statusConverged (.pstr ("post")) policyWithResource _ _ _ _
    (Or.inl ⟨"subnet-a, subnet-b", rfl, by decide⟩)
    rfl rfl rfl rfl rfl rfl rfl rfl rfl rfl

/-- C6 counterexample: the claim says the dedicated-master type/count
keys are omitted from the comparison baseline and from outgoing
requests when their parameters are absent.  At a concrete spec with
`dedicated_master = true` and both parameters absent, the run issues a
create whose cluster config contains both keys, each bound to `None` —
they are sent as placeholder values, not omitted. -/
theorem claim_c6_counterexample :
    (reconcile paramsMaster (.clientError ("ResourceNotFoundException") ("nf")) (.pstr ("post"))).calls
      = [.create (createArgs paramsMaster true)]
  ∧ dget (createArgs paramsMaster true) ("ElasticsearchClusterConfig")
      = .ok (cluster_config paramsMaster)
  ∧ dget (cluster_config paramsMaster) ("DedicatedMasterType") = .ok .pnone
  ∧ dget (cluster_config paramsMaster) ("DedicatedMasterCount") = .ok .pnone :=
  ⟨rfl, rfl, rfl, rfl⟩

/-- C6 as amended: for every spec whose dedicated-master flag is true
while both dedicated-master parameters are absent, the comparison
baseline (`cluster_config`) contains the `DedicatedMasterType` and
`DedicatedMasterCount` keys with value `None`, and that same baseline is
what every create and update request carries under
`ElasticsearchClusterConfig`; no local error is raised. -/
theorem claim_c6_amended (p : Params)
    (hdm : p.dedicated_master = true)
    (ht : p.dedicated_master_instance_type = none)
    (hc : p.dedicated_master_instance_count = none) :
    dget (cluster_config p) ("DedicatedMasterType") = .ok .pnone
  ∧ dget (cluster_config p) ("DedicatedMasterCount") = .ok .pnone
  ∧ (∀ inc, dget (createArgs p inc) ("ElasticsearchClusterConfig") = .ok (cluster_config p))
  ∧ (∀ pdoc inc, dget (updateArgs p pdoc inc) ("ElasticsearchClusterConfig") = .ok (cluster_config p)) := by
  refine ⟨?_, ?_, ?_, ?_⟩
  · simp only [cluster_config, hdm, ht, hc, if_true, optStrVal]
    cases hza : p.zone_awareness <;> rfl
  · simp only [cluster_config, hdm, ht, hc, if_true, optStrVal]
    cases hza : p.zone_awareness <;> rfl
  · intro inc
    rfl
  · intro pdoc inc
    rfl

/-- Witness for the amended C6 at the concrete dedicated-master spec. -/
theorem claim_c6_amended_witness :
    dget (cluster_config paramsMaster) ("DedicatedMasterCount") = .ok .pnone :=
  (claim_c6_amended paramsMaster rfl rfl rfl).2.1

/-- C7: a ClientError on describe whose code is not
`ResourceNotFoundException` ends the run through `fail_json` with a
message carrying the provider error code and message, and with no
create and no update call.  `fail_json` is not passed a `changed`
value, so the failed result carries no `changed=true` (Ansible reports
the task as failed with `changed=false`); the `changed = True`
assignment preceding the code check is dead on this path. -/
theorem claim_c7 (p : Params) (code msg : String) (fin : PyVal)
    (h : code ≠ "ResourceNotFoundException") :
    reconcile p (.clientError code msg) fin
      = ⟨.failed ("Error: " ++ code ++ " " ++ msg), []⟩ := by
  simp only [reconcile, if_neg h]

/-- Witness for C7 at a concrete provider error. -/
theorem claim_c7_witness :
    reconcile paramsCreate (.clientError ("AccessDenied") ("denied")) (.pstr ("post"))
      = ⟨.failed ("Error: " ++ "AccessDenied" ++ " " ++ "denied"), []⟩ :=
  claim_c7 paramsCreate ("AccessDenied") ("denied") (.pstr ("post")) (by decide)

/-- C8: encryption at rest is create-only.  Every create call issued by
a run carries the `EncryptionAtRestOptions` entry (with exactly the
options derived from the spec), every update call issued by a run has
no such entry, and on the found path the run is entirely independent of
the two encryption parameters — so a difference in encryption alone
never sets `changed=true` and never triggers an update. -/
theorem claim_c8 :
    (∀ (p : Params) (d : DescribeResult) (fin args : PyVal),
        Request.create args ∈ (reconcile p d fin).calls →
        dget args ("EncryptionAtRestOptions") = .ok (encryption_at_rest_options p))
  ∧ (∀ (p : Params) (d : DescribeResult) (fin args : PyVal),
        Request.update args ∈ (reconcile p d fin).calls →
        dget args ("EncryptionAtRestOptions") = .error (.keyError ("EncryptionAtRestOptions")))
  ∧ (∀ (p : Params) (e : PyVal) (k : Option String) (status fin : PyVal),
        reconcile { p with encryption_at_rest_enabled := e, encryption_at_rest_kms_key_id := k }
          (.found status) fin = reconcile p (.found status) fin) := by
  refine ⟨?_, ?_, ?_⟩
  · intro p d fin args h
    rcases calls_shape p d fin with h0 | ⟨inc, h1⟩ | ⟨pdoc, inc, h2⟩
    · rw [h0] at h; cases h
    · rw [h1] at h
      have heq := List.mem_singleton.mp h
      injection heq with h3
      subst h3
      cases inc <;> rfl
    · rw [h2] at h
      exact Request.noConfusion (List.mem_singleton.mp h)
  · intro p d fin args h
    rcases calls_shape p d fin with h0 | ⟨inc, h1⟩ | ⟨pdoc, inc, h2⟩
    · rw [h0] at h; cases h
    · rw [h1] at h
      exact Request.noConfusion (List.mem_singleton.mp h)
    · rw [h2] at h
      have heq := List.mem_singleton.mp h
      injection heq with h3
      subst h3
      cases inc <;> rfl
  · intro p e k status fin
    cases p
    rfl

/-- Witness for C8: a concrete create call carries the encryption
options, a concrete update call has no encryption entry. -/
theorem claim_c8_witness :
    dget (createArgs paramsMaster true) ("EncryptionAtRestOptions")
        = .ok (encryption_at_rest_options paramsMaster)
  ∧ dget (updateArgs paramsVpc policyWithResource true) ("EncryptionAtRestOptions")
        = .error (.keyError ("EncryptionAtRestOptions")) := by
  constructor
  · exact claim_c8.1 paramsMaster (.clientError ("ResourceNotFoundException") ("nf"))
      (.pstr ("post")) (createArgs paramsMaster true) (List.mem_singleton.mpr rfl)
  · exact claim_c8.2.1 paramsVpc (.found statusSnapshotDiff) (.pstr ("post"))
      (updateArgs paramsVpc policyWithResource true) (List.mem_singleton.mpr rfl)

/-- C9: encryption enablement is a string comparison.  Every create
request carries the derived encryption options; their `Enabled` value is
the Python comparison of the raw `encryption_at_rest_enabled` parameter
with the string "True", the `KmsKeyId` key is present exactly when that
comparison succeeds, and the comparison fails for the boolean `True` and
for the strings "true" and "yes" while succeeding for the string
"True". -/
theorem claim_c9 :
    (∀ (p : Params) (inc : Bool),
        dget (createArgs p inc) ("EncryptionAtRestOptions") = .ok (encryption_at_rest_options p))
  ∧ (∀ p : Params, dget (encryption_at_rest_options p) ("Enabled")
        = .ok (.pbool (pyEq p.encryption_at_rest_enabled (.pstr ("True")))))
  ∧ (∀ p : Params, pyEq p.encryption_at_rest_enabled (.pstr ("True")) = true →
        dget (encryption_at_rest_options p) ("KmsKeyId")
          = .ok (optStrVal p.encryption_at_rest_kms_key_id))
  ∧ (∀ p : Params, pyEq p.encryption_at_rest_enabled (.pstr ("True")) = false →
        dget (encryption_at_rest_options p) ("KmsKeyId") = .error (.keyError ("KmsKeyId")))
  ∧ pyEq (.pbool true) (.pstr ("True")) = false
  ∧ pyEq (.pstr ("true")) (.pstr ("True")) = false
  ∧ pyEq (.pstr ("yes")) (.pstr ("True")) = false
  ∧ pyEq (.pstr ("True")) (.pstr ("True")) = true := by
  refine ⟨?_, ?_, ?_, ?_, rfl, rfl, rfl, rfl⟩
  · intro p inc
    cases inc <;> rfl
  · intro p
    rfl
  · intro p h
    simp only [encryption_at_rest_options, encryptionEnabled, h, if_true]
    rfl
  · intro p h
    simp only [encryption_at_rest_options, encryptionEnabled, h, Bool.false_eq_true, if_false]
    rfl

/-- Witness for C9: with the parameter exactly "True" the key id is
included; with the default boolean `False` it is absent. -/
theorem claim_c9_witness :
    dget (encryption_at_rest_options paramsEncTrue) ("KmsKeyId")
        = .ok (optStrVal paramsEncTrue.encryption_at_rest_kms_key_id)
  ∧ dget (encryption_at_rest_options paramsCreate) ("KmsKeyId")
        = .error (.keyError ("KmsKeyId")) :=
  ⟨claim_c9.2.2.1 paramsEncTrue rfl, claim_c9.2.2.2.1 paramsCreate rfl⟩

/-- C10: on the found path, a desired access-policy document without a
top-level `Statement` key raises an uncaught KeyError before any diff
is computed: the run aborts with no `errorMessage` result (the outcome
is a crash, not `failed`) and with no update call. -/
theorem claim_c10 (p : Params) (pkvs : PyDict) (status fin : PyVal)
    (hpol : p.access_policies = .pdict pkvs)
    (hns : dlookup pkvs ("Statement") = none) :
    reconcile p (.found status) fin = ⟨.crashed (.keyError ("Statement")), []⟩ := by
  simp only [reconcile, foundPath, patchPolicy, hpol, hns, crashRun]

/-- Witness for C10 at a concrete Statement-less policy. -/
theorem claim_c10_witness :
    reconcile { paramsFound with access_policies := .pdict (PyDict.ofList [("Version", .pstr ("2012-10-17"))]) }
      (.found statusConverged) (.pstr ("post"))
      = ⟨.crashed (.keyError ("Statement")), []⟩ :=
  claim_c10 _ (PyDict.ofList [("Version", .pstr ("2012-10-17"))]) statusConverged (.pstr ("post")) rfl rfl

end EsModule
